import Mathlib

/-!
Shallow embedding of `src/app.py`, a single-page Streamlit application that
lets a user upload an image, click points on it, and invoke an external SAM 2
segmentation model to cut out the indicated object as a transparent PNG.

The Streamlit script runs top to bottom on every UI refresh ("rerun").  We
model one such run as a pure function from the persisted session state and the
run's inputs (the uploaded file, the click-widget value, the two button flags,
and the outcome of the external model call) to the next session state together
with a trace of observable effects.  `st.rerun()` aborts the script, so a run
returns as soon as it is reached.  Pure display text (st.info, st.subheader,
spinner) is not tracked; model invocations, error and warning messages of the
segmentation block, and the result display/download are.
-/

namespace Seg

/-- An RGB pixel, as in the PIL image converted with convert("RGB"). -/
structure RGB where
  r : Nat
  g : Nat
  b : Nat
deriving DecidableEq

/-- An RGBA pixel. -/
structure RGBA where
  r : Nat
  g : Nat
  b : Nat
  a : Nat
deriving DecidableEq

/-- The uploaded image after Image.open(...).convert("RGB"): a size and a
pixel function. -/
structure Img where
  width : Nat
  height : Nat
  pix : Nat → Nat → RGB

/-- An RGBA image, as produced by Image.new("RGBA", size) and paste. -/
structure RGBAImg where
  width : Nat
  height : Nat
  pix : Nat → Nat → RGBA

/-- The segmentation mask returned by the external model: a boolean array
(results[0].masks.data[0]) indicating which pixels belong to the object. -/
structure Mask where
  width : Nat
  height : Nat
  val : Nat → Nat → Bool

/-- A click coordinate pair [x, y] as delivered by streamlit_image_coordinates. -/
abbrev Point := Int × Int

/-- A file delivered by st.file_uploader: its name and its decoded content. -/
structure UploadedFile where
  name : String
  content : Img

/-- The keys initialized into st.session_state at lines 62-75 of app.py:
points, image_uploaded_name, segmented_image_rgba, is_processing,
reset_counter. -/
structure SessionState where
  points : List Point
  image_uploaded_name : Option String
  segmented_image_rgba : Option RGBAImg
  is_processing : Bool
  reset_counter : Nat

/-- The state after the first run's initialization block (lines 62-75). -/
def initState : SessionState :=
  { points := []
    image_uploaded_name := none
    segmented_image_rgba := none
    is_processing := false
    reset_counter := 0 }

/-- Outcome of the external predictor call at lines 172-174: either a mask is
found (results[0].masks.data non-empty), or no mask is found, or an exception
with message e is raised somewhere inside the try block. -/
inductive ModelOutcome where
  | success (mask : Mask)
  | noMask
  | raised (e : String)

/-- A PNG encoding of an RGBA image, as written by save(format="PNG"). -/
structure PngData where
  content : RGBAImg

/-- Observable effects of one script run that the claims are about. -/
inductive Effect where
  | warning (msg : String)
  | errorMsg (msg : String)
  | modelCall (source : Img) (pts : List Point) (labels : List Nat)
  | showImage (img : RGBAImg)
  | downloadButton (label : String) (data : PngData) (fileName : String) (mime : String)
  | crash

/-- The inputs of one script run: the uploader's current file, the click
widget's value, whether each button reports a press this run, and the
behaviour the external model would exhibit if called. -/
structure RunInput where
  uploaded : Option UploadedFile
  clickValue : Option Point
  resetPressed : Bool
  runPressed : Bool
  modelOutcome : ModelOutcome

/-- Lines 83-91: if a file is present whose name differs from the recorded
one, reset points, the cached result, the recorded name, the processing flag
and the reset counter. -/
def resetOnNewUpload (s : SessionState) (uploaded : Option UploadedFile) : SessionState :=
  match uploaded with
  | none => s
  | some f =>
      if s.image_uploaded_name ≠ some f.name then
        { points := []
          segmented_image_rgba := none
          image_uploaded_name := some f.name
          is_processing := false
          reset_counter := 0 }
      else s

/-- Lines 111-122: a click value [x, y] is appended only when not already in
the points list; an append also clears the cached result and the processing
flag.  The boolean reports whether an append (and hence st.rerun) happened. -/
def handleClick (s : SessionState) (p : Point) : SessionState × Bool :=
  if p ∈ s.points then (s, false)
  else
    ({ s with
        points := s.points ++ [p]
        segmented_image_rgba := none
        is_processing := false }, true)

/-- Lines 176-182: fresh transparent RGBA canvas of the image's size, with the
image pasted wherever the boolean mask is set (pasted pixels become opaque). -/
def pasteCutout (image : Img) (mask : Mask) : RGBAImg :=
  { width := image.width
    height := image.height
    pix := fun x y =>
      if mask.val x y then
        RGBA.mk (image.pix x y).r (image.pix x y).g (image.pix x y).b 255
      else RGBA.mk 0 0 0 0 }

/-- The label prepended to the exception text by st.error at line 189. -/
def segErrLabel : String := "セグメンテーション中にエラーが発生しました: "

/-- Lines 166-196: the segmentation block.  The predictor is invoked with
np.array(points) and np.ones(len(points)); on success the pasted cutout is
stored, on an empty result the cached result is cleared with a warning, on an
exception error messages are shown and the result is left untouched; the
finally clause always resets is_processing (and reruns, aborting the script
before the display block). -/
def runSegmentation (s : SessionState) (imageNp : Img) (outcome : ModelOutcome) :
    SessionState × List Effect :=
  let callEff := Effect.modelCall imageNp s.points (List.replicate s.points.length 1)
  match outcome with
  | ModelOutcome.success mask =>
      ({ s with
          segmented_image_rgba := some (pasteCutout imageNp mask)
          is_processing := false },
       [callEff])
  | ModelOutcome.noMask =>
      ({ s with segmented_image_rgba := none, is_processing := false },
       [callEff,
        Effect.warning "指定された点ではセグメンテーションマスクが見つかりませんでした。別の点を試してください。"])
  | ModelOutcome.raised e =>
      ({ s with is_processing := false },
       [callEff,
        Effect.errorMsg (segErrLabel ++ e),
        Effect.errorMsg "モデルの入力点や画像の形式を確認してください。",
        Effect.warning "大規模な画像をセグメンテーションする場合、メモリが不足する可能性があります。"])

/-- Lines 199-218: when a result is cached, show it and offer it for download
as a PNG.  The download file name dereferences uploaded_file, which raises if
no file is present. -/
def displayBlock (s : SessionState) (uploaded : Option UploadedFile) : List Effect :=
  match s.segmented_image_rgba with
  | none => []
  | some img =>
      match uploaded with
      | some f =>
          [Effect.showImage img,
           Effect.downloadButton "透過PNGをダウンロード" (PngData.mk img)
             ("segmented_" ++ (f.name.splitOn ".").headD "" ++ ".png") "image/png"]
      | none => [Effect.showImage img, Effect.crash]

/-- Lines 161-196 then 199-218: the segmentation block runs when the
processing flag is set (aborting via st.rerun in its finally clause);
otherwise the display block runs. -/
def afterClickAndButtons (s : SessionState) (f : UploadedFile) (inp : RunInput) :
    SessionState × List Effect :=
  if s.is_processing then runSegmentation s f.content inp.modelOutcome
  else (s, displayBlock s (some f))

/-- Lines 125-150: the two buttons are rendered only when points is nonempty;
the reset button clears points, result and flag and bumps the counter, the run
button sets the processing flag and clears the result; either press reruns
(aborting the script). -/
def buttonsAndAfter (s : SessionState) (f : UploadedFile) (inp : RunInput) :
    SessionState × List Effect :=
  if s.points ≠ [] then
    if inp.resetPressed then
      ({ s with
          points := []
          segmented_image_rgba := none
          is_processing := false
          reset_counter := s.reset_counter + 1 }, [])
    else if inp.runPressed then
      ({ s with is_processing := true, segmented_image_rgba := none }, [])
    else afterClickAndButtons s f inp
  else afterClickAndButtons s f inp

/-- Lines 93-155 for a present upload: click handling first (an append
reruns, aborting the script), then the buttons, then segmentation/display. -/
def uploadedBranch (s : SessionState) (f : UploadedFile) (inp : RunInput) :
    SessionState × List Effect :=
  match inp.clickValue with
  | some p =>
      let r := handleClick s p
      if r.2 then (r.1, []) else buttonsAndAfter r.1 f inp
  | none => buttonsAndAfter s f inp

/-- The script body after the new-upload reset: with no file only the display
block can run (the segmentation condition requires a file); with a file the
uploaded branch runs. -/
def runScriptBody (s : SessionState) (inp : RunInput) : SessionState × List Effect :=
  match inp.uploaded with
  | none => (s, displayBlock s none)
  | some f => uploadedBranch s f inp

/-- One full script run: the new-upload reset (lines 83-91) is applied before
any further handling. -/
def runScript (s : SessionState) (inp : RunInput) : SessionState × List Effect :=
  runScriptBody (resetOnNewUpload s inp.uploaded) inp

/-- The session states reachable from initialization by any sequence of runs. -/
inductive Reachable : SessionState → Prop
  | start : Reachable initState
  | step (s : SessionState) (inp : RunInput) :
      Reachable s → Reachable (runScript s inp).1

/-- The model invocations recorded in an effect trace. -/
def modelCallsOf : List Effect → List (Img × List Point × List Nat)
  | [] => []
  | Effect.modelCall src pts lbls :: rest => (src, pts, lbls) :: modelCallsOf rest
  | _ :: rest => modelCallsOf rest

/-! Concrete data used by witnesses and counterexamples. -/

/-- A concrete 1x1 black image. -/
def img0 : Img := { width := 1, height := 1, pix := fun _ _ => RGB.mk 0 0 0 }

/-- A concrete all-true mask. -/
def mask0 : Mask := { width := 1, height := 1, val := fun _ _ => true }

/-- A concrete uploaded file. -/
def fileA : UploadedFile := { name := "a.png", content := img0 }

/-- A session state holding one recorded click on fileA. -/
def stDup : SessionState :=
  { points := [((1 : Int), (2 : Int))]
    image_uploaded_name := some "a.png"
    segmented_image_rgba := none
    is_processing := false
    reset_counter := 0 }

/-- A session state with the processing flag raised for fileA. -/
def stProc : SessionState :=
  { points := [((1 : Int), (2 : Int))]
    image_uploaded_name := some "a.png"
    segmented_image_rgba := none
    is_processing := true
    reset_counter := 0 }

/-- A run where fileA is freshly uploaded and nothing else happens. -/
def inpUpload : RunInput :=
  { uploaded := some fileA, clickValue := none, resetPressed := false
    runPressed := false, modelOutcome := ModelOutcome.noMask }

/-- A run where the image is clicked at (1, 2). -/
def inpClick : RunInput :=
  { uploaded := some fileA, clickValue := some (1, 2), resetPressed := false
    runPressed := false, modelOutcome := ModelOutcome.noMask }

/-- A run where the segmentation button is pressed. -/
def inpRun : RunInput :=
  { uploaded := some fileA, clickValue := none, resetPressed := false
    runPressed := true, modelOutcome := ModelOutcome.noMask }

/-- The rerun after the button press, in which the model succeeds. -/
def inpSeg : RunInput :=
  { uploaded := some fileA, clickValue := none, resetPressed := false
    runPressed := false, modelOutcome := ModelOutcome.success mask0 }

/-- A quiet rerun with no interaction. -/
def inpShow : RunInput :=
  { uploaded := some fileA, clickValue := none, resetPressed := false
    runPressed := false, modelOutcome := ModelOutcome.noMask }

/-- A run where the already-recorded point (1, 2) is clicked again. -/
def inpDupClick : RunInput :=
  { uploaded := some fileA, clickValue := some (1, 2), resetPressed := false
    runPressed := false, modelOutcome := ModelOutcome.noMask }

/-- A reachable state with one recorded click, built by uploading and
clicking. -/
def reachedClicked : SessionState :=
  (runScript (runScript initState inpUpload).1 inpClick).1

/-- A reachable state with the processing flag raised, built by uploading,
clicking and pressing the run button. -/
def reachedProc : SessionState :=
  (runScript (runScript (runScript initState inpUpload).1 inpClick).1 inpRun).1

/-! Helper lemmas. -/

/-- The segmentation block never changes the points list. -/
theorem runSegmentation_points (s : SessionState) (img : Img) (out : ModelOutcome) :
    (runSegmentation s img out).1.points = s.points := by
  cases out <;> rfl

/-- The segmentation block always lowers the processing flag. -/
theorem runSegmentation_flag (s : SessionState) (img : Img) (out : ModelOutcome) :
    (runSegmentation s img out).1.is_processing = false := by
  cases out <;> rfl

/-- The segmentation/display stage never changes the points list. -/
theorem afterClickAndButtons_points (s : SessionState) (f : UploadedFile) (inp : RunInput) :
    (afterClickAndButtons s f inp).1.points = s.points := by
  unfold afterClickAndButtons
  split
  · exact runSegmentation_points s f.content inp.modelOutcome
  · rfl

/-- With neither button pressed, the button stage is a fall-through. -/
theorem buttonsAndAfter_fallthrough (s : SessionState) (f : UploadedFile) (inp : RunInput)
    (hr : inp.resetPressed = false) (hp : inp.runPressed = false) :
    buttonsAndAfter s f inp = afterClickAndButtons s f inp := by
  unfold buttonsAndAfter
  split
  · rw [hr, hp]
    simp
  · rfl

/-- With the reset button not pressed, the points list survives the button
stage and everything after it. -/
theorem buttonsAndAfter_points (s : SessionState) (f : UploadedFile) (inp : RunInput)
    (hr : inp.resetPressed = false) :
    (buttonsAndAfter s f inp).1.points = s.points := by
  unfold buttonsAndAfter
  split
  · rw [hr]
    simp only [Bool.false_eq_true, if_false]
    split
    · rfl
    · exact afterClickAndButtons_points s f inp
  · exact afterClickAndButtons_points s f inp

/-- An upload whose name matches the recorded one triggers no reset. -/
theorem resetOnNewUpload_same (s : SessionState) (f : UploadedFile)
    (hn : s.image_uploaded_name = some f.name) :
    resetOnNewUpload s (some f) = s := by
  simp [resetOnNewUpload, hn]

/-- If the flag is up then no cached result exists. -/
def InvProc (s : SessionState) : Prop :=
  s.is_processing = true → s.segmented_image_rgba = none

/-- The new-upload reset preserves the flag/result invariant. -/
theorem invProc_reset (s : SessionState) (u : Option UploadedFile) (h : InvProc s) :
    InvProc (resetOnNewUpload s u) := by
  cases u with
  | none => exact h
  | some f =>
    simp only [resetOnNewUpload]
    split
    · intro _
      rfl
    · exact h

/-- The segmentation/display stage preserves the flag/result invariant. -/
theorem invProc_after (s : SessionState) (f : UploadedFile) (inp : RunInput) (h : InvProc s) :
    InvProc (afterClickAndButtons s f inp).1 := by
  unfold afterClickAndButtons
  split
  · intro hc
    rw [runSegmentation_flag] at hc
    cases hc
  · exact h

/-- The button stage preserves the flag/result invariant. -/
theorem invProc_buttons (s : SessionState) (f : UploadedFile) (inp : RunInput) (h : InvProc s) :
    InvProc (buttonsAndAfter s f inp).1 := by
  unfold buttonsAndAfter
  split
  · split
    · intro hc
      cases hc
    · split
      · intro _
        rfl
      · exact invProc_after s f inp h
  · exact invProc_after s f inp h

/-- The whole script body preserves the flag/result invariant. -/
theorem invProc_body (s : SessionState) (inp : RunInput) (h : InvProc s) :
    InvProc (runScriptBody s inp).1 := by
  unfold runScriptBody
  cases inp.uploaded with
  | none => exact h
  | some f =>
    unfold uploadedBranch
    cases inp.clickValue with
    | none => exact invProc_buttons s f inp h
    | some p =>
      by_cases hp : p ∈ s.points
      · simp only [handleClick, if_pos hp]
        exact invProc_buttons s f inp h
      · simp only [handleClick, if_neg hp]
        intro hc
        cases hc

/-- One script run preserves the flag/result invariant. -/
theorem invProc_runScript (s : SessionState) (inp : RunInput) (h : InvProc s) :
    InvProc (runScript s inp).1 :=
  invProc_body (resetOnNewUpload s inp.uploaded) inp (invProc_reset s inp.uploaded h)

/-- The new-upload reset preserves duplicate-freedom of the points list. -/
theorem nodupPoints_reset (s : SessionState) (u : Option UploadedFile)
    (h : s.points.Nodup) : (resetOnNewUpload s u).points.Nodup := by
  cases u with
  | none => exact h
  | some f =>
    simp only [resetOnNewUpload]
    split
    · exact List.nodup_nil
    · exact h

/-- The button stage preserves duplicate-freedom of the points list. -/
theorem nodupPoints_buttons (s : SessionState) (f : UploadedFile) (inp : RunInput)
    (h : s.points.Nodup) : (buttonsAndAfter s f inp).1.points.Nodup := by
  unfold buttonsAndAfter
  split
  · split
    · exact List.nodup_nil
    · split
      · exact h
      · rw [afterClickAndButtons_points]
        exact h
  · rw [afterClickAndButtons_points]
    exact h

/-- The whole script body preserves duplicate-freedom of the points list: the
only growth path is the append guarded by the membership test. -/
theorem nodupPoints_body (s : SessionState) (inp : RunInput)
    (h : s.points.Nodup) : (runScriptBody s inp).1.points.Nodup := by
  unfold runScriptBody
  cases inp.uploaded with
  | none => exact h
  | some f =>
    unfold uploadedBranch
    cases inp.clickValue with
    | none => exact nodupPoints_buttons s f inp h
    | some p =>
      by_cases hp : p ∈ s.points
      · simp only [handleClick, if_pos hp]
        exact nodupPoints_buttons s f inp h
      · simp only [handleClick, if_neg hp]
        simp [List.nodup_append, h, hp]

/-- One script run preserves duplicate-freedom of the points list. -/
theorem nodupPoints_runScript (s : SessionState) (inp : RunInput)
    (h : s.points.Nodup) : (runScript s inp).1.points.Nodup :=
  nodupPoints_body (resetOnNewUpload s inp.uploaded) inp (nodupPoints_reset s inp.uploaded h)

/-- Every reachable session state has a duplicate-free points list. -/
theorem nodupPoints_reachable (s : SessionState) (h : Reachable s) : s.points.Nodup := by
  induction h with
  | start => exact List.nodup_nil
  | step s inp _ ih => exact nodupPoints_runScript s inp ih

/-- A run with a matching upload, no fresh click and no button press reduces
to the segmentation/display stage. -/
theorem runScript_quiet (t : SessionState) (f : UploadedFile) (inp : RunInput)
    (hn : t.image_uploaded_name = some f.name)
    (hu : inp.uploaded = some f) (hc : inp.clickValue = none)
    (hr : inp.resetPressed = false) (hp : inp.runPressed = false) :
    runScript t inp = afterClickAndButtons t f inp := by
  simp [runScript, hu, resetOnNewUpload_same t f hn, runScriptBody, uploadedBranch, hc,
    buttonsAndAfter_fallthrough _ _ _ hr hp]

/-- In every reachable state, a raised processing flag means the cached
result has already been cleared. -/
theorem invProc_reachable (s : SessionState) (h : Reachable s) : InvProc s := by
  induction h with
  | start =>
    intro hc
    cases hc
  | step s inp _ ih => exact invProc_runScript s inp ih

/-! Claim theorems. -/

/-- Claim C1: for every press of the segmentation button, the external model
is invoked exactly once, with the accumulated list of clicked points held in
session state (in insertion order) and the uploaded image; the button run
itself performs no call, and the rerun it triggers performs exactly the one
call with those arguments. -/
theorem C1_model_called_with_accumulated_points (s : SessionState) (f : UploadedFile)
    (inp1 inp2 : RunInput)
    (hne : s.points ≠ [])
    (hn : s.image_uploaded_name = some f.name)
    (h1u : inp1.uploaded = some f) (h1c : inp1.clickValue = none)
    (h1r : inp1.resetPressed = false) (h1p : inp1.runPressed = true)
    (h2u : inp2.uploaded = some f) (h2c : inp2.clickValue = none)
    (h2r : inp2.resetPressed = false) (h2p : inp2.runPressed = false) :
    modelCallsOf (runScript s inp1).2 = [] ∧
    modelCallsOf (runScript (runScript s inp1).1 inp2).2 =
      [(f.content, s.points, List.replicate s.points.length 1)] := by
  have e1 : runScript s inp1 =
      ({ s with is_processing := true, segmented_image_rgba := none }, []) := by
    simp [runScript, h1u, resetOnNewUpload_same s f hn, runScriptBody, uploadedBranch, h1c,
      buttonsAndAfter, hne, h1r, h1p]
  have hpts1 : (runScript s inp1).1.points = s.points := by
    rw [e1]
  have hn1 : (runScript s inp1).1.image_uploaded_name = some f.name := by
    rw [e1]
    exact hn
  have hproc1 : (runScript s inp1).1.is_processing = true := by
    rw [e1]
  refine ⟨by simp [e1, modelCallsOf], ?_⟩
  rw [runScript_quiet _ f inp2 hn1 h2u h2c h2r h2p]
  unfold afterClickAndButtons
  rw [hproc1]
  simp only [if_true]
  cases inp2.modelOutcome <;> simp [runSegmentation, modelCallsOf, hpts1]

/-- Witness for C1 at a concrete state with one recorded click. -/
theorem C1_witness :
    modelCallsOf (runScript stDup inpRun).2 = [] ∧
    modelCallsOf (runScript (runScript stDup inpRun).1 inpSeg).2 =
      [(fileA.content, stDup.points, List.replicate stDup.points.length 1)] :=
  C1_model_called_with_accumulated_points stDup fileA inpRun inpSeg
    (by decide) rfl rfl rfl rfl rfl rfl rfl rfl rfl

/-- Claim C2 fails as stated: clicking the displayed image at a coordinate
already in the points list does not append it, so the list does not grow by
that click. -/
theorem C2_counterexample :
    (runScript stDup inpDupClick).1.points ≠ stDup.points ++ [(1, 2)] := by
  decide

/-- Claim C2 amended: a click at a coordinate not already present is appended
to the session-state points list; a click at a coordinate already present
leaves the list unchanged. -/
theorem C2_click_appends_when_new (s : SessionState) (f : UploadedFile) (inp : RunInput)
    (p : Point)
    (hu : inp.uploaded = some f)
    (hn : s.image_uploaded_name = some f.name)
    (hc : inp.clickValue = some p)
    (hr : inp.resetPressed = false) :
    (p ∉ s.points → (runScript s inp).1.points = s.points ++ [p]) ∧
    (p ∈ s.points → (runScript s inp).1.points = s.points) := by
  constructor
  · intro hp
    simp [runScript, hu, resetOnNewUpload_same s f hn, runScriptBody, uploadedBranch, hc,
      handleClick, hp]
  · intro hp
    have e1 : runScript s inp = buttonsAndAfter s f inp := by
      simp [runScript, hu, resetOnNewUpload_same s f hn, runScriptBody, uploadedBranch, hc,
        handleClick, hp]
    rw [e1]
    exact buttonsAndAfter_points s f inp hr

/-- Witness for C2 amended at a concrete fresh click and a concrete
duplicate click. -/
theorem C2_witness :
    ((3, 4) ∉ stDup.points → (runScript stDup
      { uploaded := some fileA, clickValue := some (3, 4), resetPressed := false
        runPressed := false, modelOutcome := ModelOutcome.noMask }).1.points
        = stDup.points ++ [(3, 4)]) ∧
    ((3, 4) ∈ stDup.points → (runScript stDup
      { uploaded := some fileA, clickValue := some (3, 4), resetPressed := false
        runPressed := false, modelOutcome := ModelOutcome.noMask }).1.points
        = stDup.points) :=
  C2_click_appends_when_new stDup fileA
    { uploaded := some fileA, clickValue := some (3, 4), resetPressed := false
      runPressed := false, modelOutcome := ModelOutcome.noMask }
    (3, 4) rfl rfl rfl rfl

/-- Claim C3 fails as stated: two reachable states can agree on the points
list and the cached result image yet differ, because the session also keeps
the uploaded file's name (as well as a processing flag and a reset counter). -/
theorem C3_counterexample :
    Reachable initState ∧ Reachable (runScript initState inpUpload).1 ∧
    (runScript initState inpUpload).1.points = initState.points ∧
    (runScript initState inpUpload).1.segmented_image_rgba
      = initState.segmented_image_rgba ∧
    (runScript initState inpUpload).1 ≠ initState := by
  refine ⟨Reachable.start, Reachable.step _ _ Reachable.start, rfl, rfl, fun h => ?_⟩
  have hne : (runScript initState inpUpload).1.image_uploaded_name
      ≠ initState.image_uploaded_name := by decide
  exact hne (congrArg SessionState.image_uploaded_name h)

/-- Claim C3 amended: the session state persisted across UI refreshes
consists of exactly five items, the list of (x, y) integer click coordinates,
the uploaded file's name, the cached result image, the processing flag and
the reset counter; two states agreeing on these five are the same state. -/
theorem C3_state_is_five_fields (s t : SessionState)
    (h1 : s.points = t.points)
    (h2 : s.image_uploaded_name = t.image_uploaded_name)
    (h3 : s.segmented_image_rgba = t.segmented_image_rgba)
    (h4 : s.is_processing = t.is_processing)
    (h5 : s.reset_counter = t.reset_counter) : s = t := by
  cases s
  cases t
  simp_all

/-- Witness for C3 amended at two concrete equal states. -/
theorem C3_witness :
    ({ points := [], image_uploaded_name := none, segmented_image_rgba := none,
       is_processing := false, reset_counter := 0 } : SessionState) = initState :=
  C3_state_is_five_fields _ _ rfl rfl rfl rfl rfl

/-- Claim C4: when the segmentation call raises an exception e, the message
shown to the UI carries e verbatim (behind a fixed label), the model was
invoked exactly once with no retry, the only state change is lowering the
processing flag (no recovery), and the outcome state does not depend on which
exception was raised (no classification). -/
theorem C4_exception_surfaced_verbatim (s : SessionState) (img : Img) (e : String) :
    Effect.errorMsg (segErrLabel ++ e) ∈ (runSegmentation s img (ModelOutcome.raised e)).2 ∧
    modelCallsOf (runSegmentation s img (ModelOutcome.raised e)).2
      = [(img, s.points, List.replicate s.points.length 1)] ∧
    (runSegmentation s img (ModelOutcome.raised e)).1
      = { s with is_processing := false } ∧
    ∀ e2, (runSegmentation s img (ModelOutcome.raised e2)).1
      = (runSegmentation s img (ModelOutcome.raised e)).1 := by
  refine ⟨?_, rfl, rfl, fun e2 => rfl⟩
  simp [runSegmentation]

/-- Claim C5: the stored result of a successful segmentation is exactly the
paste of the boolean mask onto a fresh RGBA canvas of the image's size, and
pixelwise that paste keeps masked pixels (made opaque) and leaves every other
pixel fully transparent: no other transformation happens before display. -/
theorem C5_paste_is_only_postprocessing (s : SessionState) (img : Img) (mask : Mask) :
    (runSegmentation s img (ModelOutcome.success mask)).1.segmented_image_rgba
      = some (pasteCutout img mask) ∧
    (pasteCutout img mask).width = img.width ∧
    (pasteCutout img mask).height = img.height ∧
    ∀ x y, (pasteCutout img mask).pix x y =
      (if mask.val x y then
        RGBA.mk (img.pix x y).r (img.pix x y).g (img.pix x y).b 255
      else RGBA.mk 0 0 0 0) :=
  ⟨rfl, rfl, rfl, fun _ _ => rfl⟩

/-- Claim C6: after a successful segmentation, the next refresh offers the
cut-out object for download as a PNG encoding of the pasted RGBA image, with
the image/png mime type. -/
theorem C6_download_is_transparent_png (s : SessionState) (f : UploadedFile) (mask : Mask)
    (inp1 inp2 : RunInput)
    (hn : s.image_uploaded_name = some f.name)
    (hp : s.is_processing = true)
    (h1u : inp1.uploaded = some f) (h1c : inp1.clickValue = none)
    (h1r : inp1.resetPressed = false) (h1p : inp1.runPressed = false)
    (h1o : inp1.modelOutcome = ModelOutcome.success mask)
    (h2u : inp2.uploaded = some f) (h2c : inp2.clickValue = none)
    (h2r : inp2.resetPressed = false) (h2p : inp2.runPressed = false) :
    Effect.downloadButton "透過PNGをダウンロード" (PngData.mk (pasteCutout f.content mask))
        ("segmented_" ++ (f.name.splitOn ".").headD "" ++ ".png") "image/png"
      ∈ (runScript (runScript s inp1).1 inp2).2 := by
  have e1 : runScript s inp1 = runSegmentation s f.content inp1.modelOutcome := by
    rw [runScript_quiet s f inp1 hn h1u h1c h1r h1p]
    simp [afterClickAndButtons, hp]
  rw [e1, h1o]
  have hn2 : (runSegmentation s f.content
      (ModelOutcome.success mask)).1.image_uploaded_name = some f.name := hn
  rw [runScript_quiet _ f inp2 hn2 h2u h2c h2r h2p]
  simp [afterClickAndButtons, runSegmentation, displayBlock]

/-- Witness for C6 at a concrete processing state and concrete runs. -/
theorem C6_witness :
    Effect.downloadButton "透過PNGをダウンロード" (PngData.mk (pasteCutout fileA.content mask0))
        ("segmented_" ++ (fileA.name.splitOn ".").headD "" ++ ".png") "image/png"
      ∈ (runScript (runScript stProc inpSeg).1 inpShow).2 :=
  C6_download_is_transparent_png stProc fileA mask0 inpSeg inpShow
    rfl rfl rfl rfl rfl rfl rfl rfl rfl rfl rfl

/-- Claim C7: the mask used to build the result is the boolean array returned
by the model, used without modification: the result's opaque pixels are
exactly the positions the model's mask marks true. -/
theorem C7_mask_used_unmodified (s : SessionState) (img : Img) (mask : Mask) :
    ∃ res, (runSegmentation s img (ModelOutcome.success mask)).1.segmented_image_rgba
        = some res ∧
      ∀ x y, ((res.pix x y).a ≠ 0 ↔ mask.val x y = true) := by
  refine ⟨pasteCutout img mask, rfl, fun x y => ?_⟩
  by_cases h : mask.val x y <;> simp [pasteCutout, h]

/-- Claim C8: the session-state points list never contains duplicate entries
in any reachable state, and a click at a coordinate already in the points
list leaves the list, the cached result and the processing flag unchanged. -/
theorem C8_points_never_duplicated (s : SessionState) (p : Point)
    (hs : Reachable s) :
    s.points.Nodup ∧
    (p ∈ s.points →
      (handleClick s p).1.points = s.points ∧
      (handleClick s p).1.segmented_image_rgba = s.segmented_image_rgba ∧
      (handleClick s p).1.is_processing = s.is_processing) := by
  refine ⟨nodupPoints_reachable s hs, fun h => ?_⟩
  simp [handleClick, h]

/-- Witness for C8 at a concrete reachable state holding one click, with the
duplicate click at that same coordinate. -/
theorem C8_witness :
    reachedClicked.points.Nodup ∧
    ((1, 2) ∈ reachedClicked.points →
      (handleClick reachedClicked (1, 2)).1.points = reachedClicked.points ∧
      (handleClick reachedClicked (1, 2)).1.segmented_image_rgba
        = reachedClicked.segmented_image_rgba ∧
      (handleClick reachedClicked (1, 2)).1.is_processing
        = reachedClicked.is_processing) :=
  C8_points_never_duplicated reachedClicked (1, 2)
    (Reachable.step _ inpClick (Reachable.step _ inpUpload Reachable.start))

/-- Claim C9: when the present upload's name differs from the recorded one,
the reset block leaves exactly the state with empty points, no cached result,
the new name recorded, the processing flag down and the counter at zero, and
every script run applies this reset before any further handling. -/
theorem C9_new_upload_resets_state (s : SessionState) (f : UploadedFile) (inp : RunInput)
    (hu : inp.uploaded = some f)
    (hn : s.image_uploaded_name ≠ some f.name) :
    resetOnNewUpload s inp.uploaded =
      { points := []
        image_uploaded_name := some f.name
        segmented_image_rgba := none
        is_processing := false
        reset_counter := 0 } ∧
    runScript s inp = runScriptBody (resetOnNewUpload s inp.uploaded) inp := by
  refine ⟨?_, rfl⟩
  simp [resetOnNewUpload, hu, hn]

/-- Witness for C9 at the initial state and a concrete first upload. -/
theorem C9_witness :
    resetOnNewUpload initState inpUpload.uploaded =
      { points := []
        image_uploaded_name := some fileA.name
        segmented_image_rgba := none
        is_processing := false
        reset_counter := 0 } ∧
    runScript initState inpUpload
      = runScriptBody (resetOnNewUpload initState inpUpload.uploaded) inpUpload :=
  C9_new_upload_resets_state initState fileA inpUpload rfl (by decide)

/-- Claim C10: after every segmentation attempt the processing flag is False
whatever the outcome, and when the attempt raises an exception the cached
result remains None, because in every reachable state a raised flag means the
result was already cleared and the error branch never writes it. -/
theorem C10_attempt_lowers_flag_and_keeps_result_none (s : SessionState) (img : Img)
    (out : ModelOutcome)
    (hs : Reachable s) (hp : s.is_processing = true) :
    (runSegmentation s img out).1.is_processing = false ∧
    (∀ e, out = ModelOutcome.raised e →
      (runSegmentation s img out).1.segmented_image_rgba = none) := by
  refine ⟨runSegmentation_flag s img out, fun e he => ?_⟩
  subst he
  have hres := invProc_reachable s hs hp
  simpa [runSegmentation] using hres

/-- Witness for C10 at a concrete reachable processing state and a concrete
exception. -/
theorem C10_witness :
    (runSegmentation reachedProc img0 (ModelOutcome.raised "boom")).1.is_processing
      = false ∧
    (runSegmentation reachedProc img0
      (ModelOutcome.raised "boom")).1.segmented_image_rgba = none := by
  have h := C10_attempt_lowers_flag_and_keeps_result_none reachedProc img0
    (ModelOutcome.raised "boom")
    (Reachable.step _ inpRun (Reachable.step _ inpClick
      (Reachable.step _ inpUpload Reachable.start)))
    (by decide)
  exact ⟨h.1, h.2 "boom" rfl⟩

end Seg
